import Mathlib

/-!
Verification of the HackStreak text-authenticity scoring engine.

The engine exists in two variants in the repository:
  * `backend_python/services/paper_verification.py` (class `PaperVerificationService`),
  * `backend_python/groq_httpx_ultra.py` (class `EnhancedVerificationService` and the
    `/api/papers/verify` route `verify_paper`).

Shallow embedding conventions:
  * Python floats are modelled as rationals (`ℚ`); the concrete constants appearing in the
    source (0.6, 0.4, 0.7, 0.3, 0.8) and all concrete inputs used in theorems below are
    values at which IEEE-754 evaluation and rational evaluation agree.
  * Python `round` (banker's rounding, round-half-to-even) is `pyRound`; Python `int()`
    applied to a float (truncation toward zero) is `pyTrunc`.
  * Regex-driven analyses that the claims quantify over at the level of their numeric
    results (pattern match counts, parsed analysis dictionaries) are embedded as functions
    of those results, exactly mirroring the corresponding Python functions, which likewise
    receive the already-computed analysis dictionaries.  Text-level analyses needed by the
    claims (structure detection, sentence/word splitting, the AUTHENTICITY SCORE parser)
    are embedded directly on strings.
  * The external provider call is modelled by an `Except`/`Option` argument: `.error`
    stands for any raise / timeout / unparseable reply.
-/

namespace HackStreak

/-- Python `round` on a real value: round half to even (banker's rounding). -/
def pyRound (q : ℚ) : ℤ :=
  if q - (⌊q⌋ : ℚ) < 1/2 then ⌊q⌋
  else if 1/2 < q - (⌊q⌋ : ℚ) then ⌊q⌋ + 1
  else if ⌊q⌋ % 2 = 0 then ⌊q⌋ else ⌊q⌋ + 1

/-- Python `int()` on a float value: truncation toward zero. -/
def pyTrunc (q : ℚ) : ℤ :=
  if 0 ≤ q then ⌊q⌋ else -⌊-q⌋

/-- The ASCII whitespace characters recognised by Python's `str.split()` / `str.strip()`
and by the regex class `\s` (the inputs considered here are ASCII). -/
def isPySpace (c : Char) : Bool :=
  c = ' ' || c = '\t' || c = '\n' || c = '\r' || c = '\x0b' || c = '\x0c'

/-- The decimal digits matched by the regex class `\d` (ASCII). -/
def isPyDigit (c : Char) : Bool :=
  '0' ≤ c && c ≤ '9'

/-- Sentence-terminator characters of the regex class `[.!?]`. -/
def isSentenceEnd (c : Char) : Bool :=
  c = '.' || c = '!' || c = '?'

/-- Worker for `splitRuns`: `skipping` records that the previous character was a
separator, so that a maximal separator run contributes a single boundary. -/
def splitRunsAux (p : Char → Bool) : List Char → Bool → List (List Char)
  | [], _ => [[]]
  | c :: rest, skipping =>
    if p c then
      if skipping then splitRunsAux p rest true
      else [] :: splitRunsAux p rest true
    else
      match splitRunsAux p rest false with
      | [] => [[c]]
      | t :: ts => (c :: t) :: ts

/-- `re.split` on a character class with `+`: split on maximal nonempty runs of
separator characters, keeping empty pieces at the ends
(e.g. splitting `"a..b."` on `[.]+` gives `["a", "b", ""]`). -/
def splitRuns (p : Char → Bool) (cs : List Char) : List (List Char) :=
  splitRunsAux p cs false

/-- Python `str.split(sep)` with a single-character separator: split on every
occurrence, keeping empty pieces. -/
def splitChar (sep : Char) : List Char → List (List Char)
  | [] => [[]]
  | c :: rest =>
    if c = sep then [] :: splitChar sep rest
    else
      match splitChar sep rest with
      | [] => [[c]]
      | t :: ts => (c :: t) :: ts

/-- Worker for `splitWs`: `inWord` records that the previous character was a
non-space, i.e. the head of the result is the continuation of the current word. -/
def splitWsAux : List Char → Bool → List (List Char)
  | [], inWord => if inWord then [[]] else []
  | c :: rest, inWord =>
    if isPySpace c then
      if inWord then [] :: splitWsAux rest false else splitWsAux rest false
    else
      match splitWsAux rest true with
      | [] => [[c]]
      | t :: ts => (c :: t) :: ts

/-- Python `str.split()` with no arguments: split on runs of whitespace,
discarding empty pieces. -/
def splitWs (cs : List Char) : List (List Char) :=
  splitWsAux cs false

/-- Python `str.strip()`: remove leading and trailing whitespace. -/
def pyStrip (cs : List Char) : List Char :=
  ((cs.dropWhile isPySpace).reverse.dropWhile isPySpace).reverse

/-- Lowercase every character (model of Python `str.lower()` on ASCII text,
also used to realise `re.IGNORECASE` matching of lowercase patterns). -/
def lowerList (cs : List Char) : List Char :=
  cs.map Char.toLower

/-- `pat` occurs as a contiguous substring of `cs` (model of Python `in` on
strings and of a `re.search` for a literal pattern). -/
def occursIn (pat cs : List Char) : Bool :=
  (List.range (cs.length + 1)).any fun i => pat.isPrefixOf (cs.drop i)

/-!
## `paper_verification.py` — data model

One entry of the `detected_issues` list built by
`PaperVerificationService._detect_fake_content_patterns`.
The unordered `examples` strings are not consumed by any analysed property and are
omitted; all fields read by the scoring and recommendation code are present.
-/

structure DetectedIssue where
  type : String
  description : String
  severity : String
  category : String
  count : ℕ
deriving DecidableEq, Repr

/-- Result of `PaperVerificationService._analyze_research_structure`. -/
structure StructureAnalysis where
  found_sections : List (String × Bool)
  total_sections : ℕ
  word_count : ℕ
  sentence_count : ℕ
  has_proper_structure : Bool
deriving DecidableEq, Repr

/-- Result of `PaperVerificationService._check_content_authenticity`
(only the total is read by the scoring code). -/
structure AuthenticityCheck where
  total_authenticity_points : ℕ
deriving DecidableEq, Repr

/-- Result of `PaperVerificationService._analyze_language_patterns`.
`avg_sentence_length` is the reported value `round(avg, 1)`;
`vocabulary_diversity` is the reported value `round(raw * 100)`;
`suspicion_score` is computed from the raw (unrounded) metrics. -/
structure LanguageAnalysis where
  avg_sentence_length : ℚ
  vocabulary_diversity : ℤ
  suspicion_score : ℕ
  issues : List String
  naturalness : ℤ
deriving DecidableEq, Repr

/-- Result of `PaperVerificationService._analyze_citation_patterns`
(the fields read by the scoring code). -/
structure CitationAnalysis where
  total_citations : ℕ
  issues : List String
deriving DecidableEq, Repr

/-- The dictionary of analysis results passed to
`PaperVerificationService._calculate_fake_probability`. -/
structure Analyses where
  fake_patterns : List DetectedIssue
  structure_analysis : StructureAnalysis
  authenticity_check : AuthenticityCheck
  language_analysis : LanguageAnalysis
  citation_analysis : CitationAnalysis
deriving DecidableEq, Repr

/-!
## `paper_verification.py` — scoring
-/

/-- The severity multiplier dictionary lookup
`{"high": 15, "medium": 8, "low": 3}.get(issue["severity"], 5)`
in `_calculate_fake_probability`. -/
def severityMultiplier (s : String) : ℚ :=
  if s = "high" then 15 else if s = "medium" then 8 else if s = "low" then 3 else 5

/-- The pattern-analysis contribution of `_calculate_fake_probability`:
`for issue in detected_issues: probability += issue["count"] * multiplier`. -/
def patternScore (issues : List DetectedIssue) : ℚ :=
  (issues.map fun i => (i.count : ℚ) * severityMultiplier i.severity).sum

/-- `PaperVerificationService._calculate_fake_probability`
(paper_verification.py lines 447-480), as a function of the analysis results:
the pattern contribution, the structure penalties (+20 without proper structure,
+15 under 1000 words), the language contribution (`suspicion_score * 0.8`), the
citation penalties (+15 over 2 citation issues, +10 for zero citations in over
2000 words), the authenticity bonuses (-20, -10, -15), and the final clamp
`max(5, min(95, probability))`, in the order of the source. -/
def calculate_fake_probability (a : Analyses) : ℚ :=
  max 5 (min 95
    (patternScore a.fake_patterns
      + (if a.structure_analysis.has_proper_structure then 0 else 20)
      + (if a.structure_analysis.word_count < 1000 then 15 else 0)
      + (a.language_analysis.suspicion_score : ℚ) * (8/10)
      + (if 2 < a.citation_analysis.issues.length then 15 else 0)
      + (if a.citation_analysis.total_citations = 0 ∧ 2000 < a.structure_analysis.word_count
         then 10 else 0)
      - (if 8 < a.authenticity_check.total_authenticity_points then 20 else 0)
      - (if 15 < a.citation_analysis.total_citations then 10 else 0)
      - (if 80 < a.language_analysis.naturalness then 15 else 0)))

/-- Recommendation strings of `_generate_recommendations`. -/
def pvRecCritical : String :=
  "🚨 CRITICAL: Very high probability of fabricated content - immediate manual review required"

def pvRecHighRisk : String :=
  "⚠️ HIGH RISK: Significant concerns detected - thorough verification needed"

def pvRecModerate : String :=
  "⚡ MODERATE RISK: Some suspicious patterns found - additional checks recommended"

def pvRecLowRisk : String :=
  "✅ LOW RISK: Content appears authentic with normal characteristics"

def pvRecData : String :=
  "📊 Verify all statistical data and numerical claims with original sources"

def pvRecCitations : String :=
  "📚 Cross-check all citations for accuracy and verifiability"

def pvRecStatistical : String :=
  "📈 Statistical results require expert statistical review"

def pvRecAi : String :=
  "🤖 Language patterns suggest possible AI generation - human review needed"

/-- `PaperVerificationService._generate_recommendations`
(paper_verification.py lines 487-514): a four-branch ladder over the probability,
then one recommendation per issue category, then a naturalness-based one. -/
def generate_recommendations (probability : ℚ) (issues : List DetectedIssue)
    (language_analysis : LanguageAnalysis) : List String :=
  let base : List String :=
    if 80 < probability then [pvRecCritical]
    else if 60 < probability then [pvRecHighRisk]
    else if 40 < probability then [pvRecModerate]
    else [pvRecLowRisk]
  let issueRecs : List String := issues.foldl
    (fun acc issue =>
      if issue.category = "Data Fabrication" then acc ++ [pvRecData]
      else if issue.category = "Citation Issues" then acc ++ [pvRecCitations]
      else if issue.category = "Statistical Issues" then acc ++ [pvRecStatistical]
      else acc) []
  let langRecs : List String :=
    if language_analysis.naturalness < 60 then [pvRecAi] else []
  base ++ issueRecs ++ langRecs

/-- The dictionary returned by `PaperVerificationService._perform_local_analysis`
(the fields consumed by `_combine_analyses` and by the analysed properties). -/
structure LocalAnalysis where
  fake_probability : ℤ
  is_likely_fake : Bool
  confidence : String
  detected_issues : List DetectedIssue
  recommendations : List String
  analysis_method : String
deriving DecidableEq, Repr

/-- `PaperVerificationService._perform_local_analysis`
(paper_verification.py lines 87-120), as a function of the analysis results:
`fake_probability` is rounded, while `is_likely_fake`, `confidence` and the
recommendation ladder use the unrounded value, exactly as in the source. -/
def perform_local_analysis (a : Analyses) : LocalAnalysis :=
  let fp : ℚ := calculate_fake_probability a
  { fake_probability := pyRound fp
    is_likely_fake := decide (60 < fp)
    confidence := if 80 < fp then "High" else if 40 < fp then "Medium" else "Low"
    detected_issues := a.fake_patterns
    recommendations := generate_recommendations fp a.fake_patterns a.language_analysis
    analysis_method := "local" }

/-- The parsed Gemini reply used by `_combine_analyses`:
`ai_generated_probability` (a 0-100 number per the prompt, never range-checked)
and `authenticity["score"]` (a 0-10 number). -/
structure AiAnalysis where
  ai_generated_probability : ℚ
  authenticity_score : ℚ
deriving DecidableEq, Repr

/-- The combined verdict dictionary (`_combine_analyses` result).
The `enhanced_recommendations` list is not consumed by any analysed property
and is omitted. -/
structure CombinedResult where
  fake_probability : ℤ
  is_likely_fake : Bool
  confidence : String
  detected_issues : List DetectedIssue
  recommendations : List String
  analysis_method : String
  ai_analysis : Option AiAnalysis
deriving DecidableEq, Repr

/-- `PaperVerificationService._combine_analyses` (paper_verification.py lines 178-204).
Without an AI analysis the local dictionary is returned with `analysis_method`
overridden to "local_only"; with one, the probabilities are blended
`round(local * 0.6 + ai * 0.4)` with no re-clamping. -/
def combine_analyses (l : LocalAnalysis) (ai : Option AiAnalysis) : CombinedResult :=
  match ai with
  | none =>
    { fake_probability := l.fake_probability
      is_likely_fake := l.is_likely_fake
      confidence := l.confidence
      detected_issues := l.detected_issues
      recommendations := l.recommendations
      analysis_method := "local_only"
      ai_analysis := none }
  | some a =>
    let combined : ℤ :=
      pyRound ((l.fake_probability : ℚ) * (6/10) + a.ai_generated_probability * (4/10))
    let aiConfidence : String :=
      if 7 < a.authenticity_score then "High"
      else if 4 < a.authenticity_score then "Medium" else "Low"
    let factors : List String := [l.confidence, aiConfidence]
    let finalConfidence : String :=
      if factors.contains "High" && !(factors.contains "Low") then "High"
      else if factors.contains "Medium" then "Medium" else "Low"
    { fake_probability := combined
      is_likely_fake := decide (60 < combined)
      confidence := finalConfidence
      detected_issues := l.detected_issues
      recommendations := l.recommendations
      analysis_method := "combined"
      ai_analysis := some a }

/-- `PaperVerificationService.verify_authenticity` (paper_verification.py lines 66-85),
with the AI call abstracted: `api_key` models `self.api_key` being set, and
`provider` models the outcome of `_perform_ai_analysis` (`.error` covers a raise,
a timeout and an unparseable reply alike — the inner `try/except` turns every such
outcome into `ai_analysis = None`, so no provider failure escapes). -/
def verify_authenticity (api_key : Bool) (l : LocalAnalysis)
    (provider : Except String AiAnalysis) : CombinedResult :=
  let ai : Option AiAnalysis :=
    if api_key then
      match provider with
      | .ok a => some a
      | .error _ => none
    else none
  combine_analyses l ai

/-!
## `groq_httpx_ultra.py` — `EnhancedVerificationService`
-/

/-- One `(pattern, name, score, severity)` tuple of the registries
`statistical_patterns` / `language_patterns` in `analyze_text_authenticity`
(groq_httpx_ultra.py lines 548-579).  Scores are signed. -/
structure GroqPattern where
  regex : String
  name : String
  score : ℤ
  severity : String
deriving DecidableEq, Repr

/-- The `statistical_patterns` registry (groq_httpx_ultra.py lines 548-564). -/
def statistical_patterns : List GroqPattern :=
  [ ⟨"\\d+\\.\\d\x7b4,\x7d%", "Overly Precise Percentages", 25, "high"⟩,
    ⟨"\\d+\\.\\d\x7b3,\x7d%", "Suspiciously Precise Statistics", 20, "high"⟩,
    ⟨"100% (accuracy|success|effectiveness|correlation)", "Perfect Results Claims", 30, "high"⟩,
    ⟨"0% (error|failure|false)", "Zero Error Claims", 25, "high"⟩,
    ⟨"cohen.s d [>=] [3-9]\\.\\d+", "Impossible Effect Sizes", 30, "high"⟩,
    ⟨"r = 0\\.9[5-9]", "Perfect Correlations", 25, "high"⟩,
    ⟨"p < 0\\.000+1", "Impossible P-values", 25, "high"⟩,
    ⟨"(50000|100000|500000|1000000) (participants|subjects|samples)",
      "Unrealistic Sample Sizes", 20, "medium"⟩ ]

/-- The legitimate recent-citation entry of `language_patterns`: the one pattern
with a negative score (groq_httpx_ultra.py line 578). -/
def recent_citation_pattern : GroqPattern :=
  ⟨"et al\\. \\(202[0-4]\\)", "Recent Citation Pattern", -5, "positive"⟩

/-- The `language_patterns` registry (groq_httpx_ultra.py lines 567-579). -/
def language_patterns : List GroqPattern :=
  [ ⟨"(unprecedented|groundbreaking|revolutionary|paradigm.shifting)",
      "Exaggerated Language", 15, "medium"⟩,
    ⟨"(extraordinary|remarkable|exceptional|outstanding) results",
      "Hyperbolic Results", 12, "medium"⟩,
    ⟨"(advanced|sophisticated|novel) (methodology|approach|technique)",
      "Vague Methodology", 10, "low"⟩,
    ⟨"(comprehensive|extensive|thorough) analysis", "Generic Analysis Claims", 8, "low"⟩,
    ⟨"(personal communication|unpublished data|internal report)",
      "Unverifiable Citations", 15, "medium"⟩,
    recent_citation_pattern ]

/-- One entry of the `detected_issues` list of `analyze_text_authenticity`. -/
structure GroqIssue where
  type : String
  description : String
  severity : String
  count : ℕ
deriving DecidableEq, Repr

/-- The pattern-application loop of `analyze_text_authenticity`
(groq_httpx_ultra.py lines 603-614): each pattern is paired with its number of
regex matches in the text; a matched pattern adds its score to the accumulator
ONCE (`fake_score += score`), regardless of the match count, and appends one
issue carrying the match count. -/
def groq_apply_patterns :
    List (GroqPattern × ℕ) → ℤ × List GroqIssue → ℤ × List GroqIssue
  | [], acc => acc
  | pm :: rest, acc =>
    groq_apply_patterns rest
      (if 0 < pm.2 then
        (acc.1 + pm.1.score,
          acc.2 ++ [{ type := pm.1.name
                      description := "Found " ++ toString pm.2 ++ " instances"
                      severity := pm.1.severity
                      count := pm.2 }])
      else acc)

/-- The score accumulator after the pattern-application loop, started from
`fake_score` and an empty issue list. -/
def groq_pattern_score (patterns : List (GroqPattern × ℕ)) (fake_score : ℤ) : ℤ :=
  (groq_apply_patterns patterns (fake_score, [])).1

/-- The AI blend of `analyze_text_authenticity` (groq_httpx_ultra.py line 622):
`fake_score = int(fake_score * 0.7 + ai_score * 0.3)` — Python `int()` truncation,
not rounding. -/
def groq_blend (fake_score ai_score : ℤ) : ℤ :=
  pyTrunc ((fake_score : ℚ) * (7/10) + (ai_score : ℚ) * (3/10))

/-- Steps 5-7 of `analyze_text_authenticity` (groq_httpx_ultra.py lines 616-640):
optional AI blend of the accumulated score, addition of the content-quality score,
clamp `min(95, max(5, int(fake_score)))`, then the post-clamp length adjustment
(`max(fp - 10, 5)` under 100 words, `min(fp + 5, 95)` over 2000 words). -/
def groq_final_probability (fake_score : ℤ) (ai_score : Option ℤ)
    (quality_score : ℤ) (word_count : ℕ) : ℤ :=
  let blended : ℤ :=
    match ai_score with
    | some a => groq_blend fake_score a
    | none => fake_score
  let withQuality : ℤ := blended + quality_score
  let fp : ℤ := min 95 (max 5 withQuality)
  if word_count < 100 then max (fp - 10) 5
  else if 2000 < word_count then min (fp + 5) 95
  else fp

/-- `EnhancedVerificationService._get_ai_analysis` (groq_httpx_ultra.py lines 650-673):
a raised exception yields the string "AI analysis failed"; an empty or missing
reply yields "AI analysis unavailable"; otherwise the reply is returned. -/
def get_ai_analysis (provider : Except Unit (Option String)) : String :=
  match provider with
  | .error _ => "AI analysis failed"
  | .ok none => "AI analysis unavailable"
  | .ok (some r) => if r = "" then "AI analysis unavailable" else r

/-!
## `groq_httpx_ultra.py` — the `AUTHENTICITY SCORE` parser
-/

/-- The literal label of the regex `AUTHENTICITY SCORE:\s*(\d+)`, lowercased
(matching is case-insensitive). -/
def labelChars : List Char := "authenticity score:".toList

/-- Numeric value of a digit string (`int(...)` on the matched group). -/
def digitsToNat (ds : List Char) : ℕ :=
  ds.foldl (fun a c => 10 * a + (c.toNat - 48)) 0

/-- Greedy `(\d+)` at the head of `cs`: the maximal leading digit run,
`none` if there is no leading digit. -/
def digitsVal? (cs : List Char) : Option ℕ :=
  match cs.takeWhile isPyDigit with
  | [] => none
  | ds => some (digitsToNat ds)

/-- Attempt to match `AUTHENTICITY SCORE:\s*(\d+)` (case-insensitively) at the
head of `cs`: the label, then the maximal whitespace run, then at least one digit. -/
def scoreAt (cs : List Char) : Option ℕ :=
  if lowerList (cs.take labelChars.length) = labelChars then
    digitsVal? ((cs.drop labelChars.length).dropWhile isPySpace)
  else none

/-- `re.search` semantics: try `scoreAt` at every position, left to right. -/
def searchScore : List Char → Option ℕ
  | [] => none
  | c :: rest =>
    match scoreAt (c :: rest) with
    | some a => some a
    | none => searchScore rest

/-- `EnhancedVerificationService._extract_ai_score` (groq_httpx_ultra.py lines 675-685):
`re.search(r'AUTHENTICITY SCORE:\s*(\d+)', ai_analysis, re.IGNORECASE)`; on a match
the fake contribution `100 - authenticity_score` is returned, otherwise `None`. -/
def extract_ai_score (s : String) : Option ℤ :=
  (searchScore s.toList).map fun a => (100 : ℤ) - (a : ℤ)

/-- Declarative reading of "the reply contains the label followed by an integer":
some decomposition `pre ++ label ++ whitespace ++ digit :: rest` where the label
segment lowercases to `AUTHENTICITY SCORE:`. -/
def LabelScorePresent (cs : List Char) : Prop :=
  ∃ (pre lab ws : List Char) (d : Char) (rest : List Char),
    cs = pre ++ lab ++ ws ++ d :: rest ∧
    lowerList lab = labelChars ∧
    (∀ c ∈ ws, isPySpace c = true) ∧
    isPyDigit d = true

/-- The same reading anchored at the head of the string: the label, an
all-whitespace run, then a digit. -/
def HeadLabelScore (cs : List Char) : Prop :=
  ∃ (lab ws : List Char) (d : Char) (rest : List Char),
    cs = lab ++ ws ++ d :: rest ∧
    lowerList lab = labelChars ∧
    (∀ c ∈ ws, isPySpace c = true) ∧
    isPyDigit d = true

/-!
## `groq_httpx_ultra.py` — `verify_paper` route
-/

/-- The `academic_sections` keyword list of `analyze_text_authenticity`
(groq_httpx_ultra.py line 585). -/
def groq_academic_sections : List String :=
  ["abstract", "introduction", "method", "result", "discussion", "conclusion", "reference"]

/-- `found_sections = sum(1 for section in academic_sections if section in text_lower)`
(groq_httpx_ultra.py line 586). -/
def groq_found_sections (text : String) : ℕ :=
  groq_academic_sections.countP fun kw => occursIn kw.toList (lowerList text.toList)

/-- The structural penalty of `analyze_text_authenticity`
(groq_httpx_ultra.py lines 588-590): add 15 when fewer than 3 section keywords occur. -/
def groq_structure_penalty (text : String) : ℤ :=
  if groq_found_sections text < 3 then 15 else 0

/-- `word_count = len(request.text.split())` in `verify_paper`
(groq_httpx_ultra.py line 743). -/
def groq_wp_word_count (text : String) : ℕ :=
  (splitWs text.toList).length

/-- `sentence_count = len([s for s in request.text.split('.') if s.strip()])`
in `verify_paper` (groq_httpx_ultra.py line 744). -/
def groq_wp_sentence_count (text : String) : ℕ :=
  ((splitChar '.' text.toList).map pyStrip).countP (· ≠ [])

/-- The recommendation ladder strings of `verify_paper`
(groq_httpx_ultra.py lines 766-771, copied byte-for-byte from the source,
whose emoji are mojibake-encoded). -/
def groqRecCritical : String :=
  "üö® High probability of fabricated content - manual review required"

def groqRecSuspicious : String :=
  "‚ö†Ô∏è Suspicious content detected - verify claims independently"

def groqRecConcerns : String :=
  "üîç Some concerns identified - check statistical claims"

def groqRecMinor : String :=
  "‚úÖ Content appears authentic with minor concerns"

def groqRecAuthentic : String :=
  "‚úÖ Content appears highly authentic"

/-- The five-level recommendation ladder of `verify_paper`: the first entry of its
`recommendations` list, a nested conditional over the fake probability. -/
def groq_first_recommendation (fake_probability : ℤ) : String :=
  if 80 < fake_probability then groqRecCritical
  else if 60 < fake_probability then groqRecSuspicious
  else if 40 < fake_probability then groqRecConcerns
  else if 20 < fake_probability then groqRecMinor
  else groqRecAuthentic

/-- The fields of the `verification_result` dictionary built by `verify_paper`
(groq_httpx_ultra.py lines 748-782) that the analysed properties read. -/
structure GroqVerificationResult where
  fake_probability : ℤ
  is_likely_fake : Bool
  confidence : String
  word_count : ℕ
  sentence_count : ℕ
  has_proper_structure : Bool
  recommendations : List String
  analysis_method : String
deriving DecidableEq, Repr

/-- `verify_paper` (groq_httpx_ultra.py lines 732-782), as a function of the input
text and of the `analysis_result` of `analyze_text_authenticity`.  Note
`has_proper_structure = word_count > 100 and sentence_count > 5` (line 764) and the
constant `analysis_method` tag (line 779). -/
def groq_verify_paper (text : String) (fake_probability : ℤ)
    (detected_issues : List GroqIssue) : GroqVerificationResult :=
  let word_count := groq_wp_word_count text
  let sentence_count := groq_wp_sentence_count text
  { fake_probability := fake_probability
    is_likely_fake := decide (60 < fake_probability)
    confidence :=
      if 80 < fake_probability ∨ fake_probability < 20 then "High" else "Medium"
    word_count := word_count
    sentence_count := sentence_count
    has_proper_structure := decide (100 < word_count) && decide (5 < sentence_count)
    recommendations :=
      [ groq_first_recommendation fake_probability,
        if detected_issues.any (fun i => occursIn "stat".toList (lowerList i.type.toList))
        then "üìä Verify all statistical claims independently"
        else "üìà Statistical reporting appears normal",
        if detected_issues.any (fun i => occursIn "citation".toList (lowerList i.type.toList))
        then "üìö Check all citations and references"
        else "üìö Citation patterns appear normal",
        if 50 < fake_probability then "üî¨ Review methodology for feasibility"
        else "üî¨ Methodology appears reasonable" ]
    analysis_method := "enhanced_ai_plus_pattern_detection" }

/-!
## `paper_verification.py` — text-level analyzers
-/

/-- Python `round(x, 1)`: one decimal place, half to even. -/
def pyRound1 (q : ℚ) : ℚ :=
  (pyRound (q * 10) : ℚ) / 10

/-- Presence test for one section pattern of `_analyze_research_structure`, e.g.
`re.compile(r'abstract[\s\S]{50,500}', re.IGNORECASE).search(text)`: the keyword
occurs (case-insensitively) at some position followed by at least `minTail`
further characters (`[\s\S]` matches every character, so a search succeeds
exactly when the lower repetition bound can be met; the upper bound never
prevents a match). -/
def sectionPresent (low : List Char) (kw : String) (minTail : ℕ) : Bool :=
  let k := kw.toList
  (List.range (low.length + 1)).any fun i =>
    k.isPrefixOf (low.drop i) && decide (i + k.length + minTail ≤ low.length)

/-- `PaperVerificationService._analyze_research_structure`
(paper_verification.py lines 273-303). -/
def analyze_research_structure (text : String) : StructureAnalysis :=
  let low := lowerList text.toList
  let fs : List (String × Bool) :=
    [ ("abstract", sectionPresent low "abstract" 50),
      ("introduction", sectionPresent low "introduction" 100),
      ("methodology",
        sectionPresent low "methodology" 100 || sectionPresent low "methods" 100),
      ("results", sectionPresent low "results" 100),
      ("discussion", sectionPresent low "discussion" 100),
      ("conclusion", sectionPresent low "conclusion" 50),
      ("references",
        sectionPresent low "references" 50 || sectionPresent low "bibliography" 50) ]
  let total := fs.countP (·.2)
  { found_sections := fs
    total_sections := total
    word_count := (splitWs text.toList).length
    sentence_count :=
      ((splitRuns isSentenceEnd text.toList).map pyStrip).countP (· ≠ [])
    has_proper_structure := decide (4 ≤ total) }

/-- The sentence list of `_analyze_language_patterns`:
`[s.strip() for s in re.split(r'[.!?]+', text) if len(s.strip()) > 10]`. -/
def pv_sentences (text : String) : List (List Char) :=
  ((splitRuns isSentenceEnd text.toList).map pyStrip).filter fun s => 10 < s.length

/-- `PaperVerificationService._analyze_language_patterns`
(paper_verification.py lines 333-372) together with `_analyze_repetitive_starters`
(lines 410-418).  The guards `if sentences`/`if words`/`if starters` make the
degenerate cases produce literal zeros instead of dividing; the suspicion score
is computed from the raw (unrounded) metrics, while the reported
`avg_sentence_length` and `vocabulary_diversity` fields are rounded. -/
def analyze_language_patterns (text : String) : LanguageAnalysis :=
  let sentences := pv_sentences text
  let words := splitWs (lowerList text.toList)
  let avgRaw : ℚ :=
    if sentences ≠ [] then
      ((sentences.map fun s => (splitWs s).length).sum : ℚ) / (sentences.length : ℚ)
    else 0
  let vdRaw : ℚ :=
    if words ≠ [] then (words.dedup.length : ℚ) / (words.length : ℚ) else 0
  let starters := (sentences.filter (· ≠ [])).map fun s => lowerList (s.take 15)
  let starterScore : ℚ :=
    if starters ≠ [] then 1 - (starters.dedup.length : ℚ) / (starters.length : ℚ)
    else 0
  let suspicion : ℕ :=
    (if 25 < avgRaw then 15 else 0) + (if vdRaw < 3/10 then 20 else 0) +
      (if 3/10 < starterScore then 25 else 0)
  { avg_sentence_length := pyRound1 avgRaw
    vocabulary_diversity := pyRound (vdRaw * 100)
    suspicion_score := suspicion
    issues :=
      (if 25 < avgRaw then
        ["Unusually long average sentence length may indicate AI generation"] else []) ++
      (if vdRaw < 3/10 then
        ["Low vocabulary diversity suggests limited language model"] else []) ++
      (if 3/10 < starterScore then ["High repetition in sentence structures"] else [])
    naturalness := max 0 (100 - (suspicion : ℤ)) }

/-!
## Concrete inputs used by the theorems
-/

/-- Seven matches of the high-severity `impossible_results` registry pattern. -/
def issuePerfect7 : DetectedIssue :=
  { type := "impossible_results"
    description := "Claims of impossible or highly unlikely perfect results"
    severity := "high"
    category := "Result Fabrication"
    count := 7 }

/-- Analysis results of a text consisting of seven repetitions of
"100% accuracy. " — seven matches of the high-severity `impossible_results`
pattern, no academic sections, 14 words, vocabulary diversity 2/14,
fully repetitive sentence starters (suspicion 20 + 25 = 45, naturalness 55). -/
def analysesPerfect7 : Analyses :=
  { fake_patterns := [issuePerfect7]
    structure_analysis :=
      { found_sections :=
          [ ("abstract", false), ("introduction", false), ("methodology", false),
            ("results", false), ("discussion", false), ("conclusion", false),
            ("references", false) ]
        total_sections := 0
        word_count := 14
        sentence_count := 7
        has_proper_structure := false }
    authenticity_check := { total_authenticity_points := 0 }
    language_analysis :=
      { avg_sentence_length := 2
        vocabulary_diversity := 14
        suspicion_score := 45
        issues :=
          [ "Low vocabulary diversity suggests limited language model",
            "High repetition in sentence structures" ]
        naturalness := 55 }
    citation_analysis := { total_citations := 0, issues := [] } }

/-- Analysis results of a short unstructured text with one medium-severity
vague-citation match and otherwise unsuspicious language
(local probability 8 + 20 + 15 - 15 = 28). -/
def analysesMid : Analyses :=
  { fake_patterns :=
      [ { type := "vague_citations"
          description := "References to unverifiable or suspicious sources"
          severity := "medium"
          category := "Citation Issues"
          count := 1 } ]
    structure_analysis :=
      { found_sections :=
          [ ("abstract", false), ("introduction", false), ("methodology", false),
            ("results", false), ("discussion", false), ("conclusion", false),
            ("references", false) ]
        total_sections := 0
        word_count := 500
        sentence_count := 30
        has_proper_structure := false }
    authenticity_check := { total_authenticity_points := 0 }
    language_analysis :=
      { avg_sentence_length := 17
        vocabulary_diversity := 55
        suspicion_score := 0
        issues := []
        naturalness := 100 }
    citation_analysis := { total_citations := 0, issues := [] } }

/-- Analysis results of a clean well-structured paper: no pattern matches, proper
structure, many citations and authenticity markers
(local probability clamped up to the floor 5). -/
def analysesClean : Analyses :=
  { fake_patterns := []
    structure_analysis :=
      { found_sections :=
          [ ("abstract", true), ("introduction", true), ("methodology", true),
            ("results", true), ("discussion", true), ("conclusion", true),
            ("references", true) ]
        total_sections := 7
        word_count := 1500
        sentence_count := 80
        has_proper_structure := true }
    authenticity_check := { total_authenticity_points := 9 }
    language_analysis :=
      { avg_sentence_length := 18
        vocabulary_diversity := 60
        suspicion_score := 0
        issues := []
        naturalness := 100 }
    citation_analysis := { total_citations := 16, issues := [] } }

/-- A 101-word, 7-sentence text containing no academic section keyword:
"a. a. a. a. a. a." followed by 95 repetitions of " a". -/
def textManyWords : String :=
  "a. a. a. a. a. a." ++ String.join (List.replicate 95 " a")

/-!
## Helper lemmas
-/

theorem pyRound_intCast (n : ℤ) : pyRound (n : ℚ) = n := by
  simp [pyRound, Int.floor_intCast]

theorem pyRound_mono {q r : ℚ} (h : q ≤ r) : pyRound q ≤ pyRound r := by
  have hf : ⌊q⌋ ≤ ⌊r⌋ := Int.floor_mono h
  rcases lt_or_eq_of_le hf with hlt | heq
  · have h1 : pyRound q ≤ ⌊q⌋ + 1 := by
      unfold pyRound; split_ifs <;> omega
    have h2 : ⌊r⌋ ≤ pyRound r := by
      unfold pyRound; split_ifs <;> omega
    omega
  · have hq : q - (⌊q⌋ : ℚ) ≤ r - (⌊r⌋ : ℚ) := by
      rw [← heq]; linarith
    unfold pyRound
    rw [← heq] at *
    split_ifs <;> first | omega | linarith

theorem pyRound_ratCast_eq (q : ℚ) (n : ℤ) (h : q = (n : ℚ)) : pyRound q = n := by
  rw [h, pyRound_intCast]

theorem pyRound_zero : pyRound 0 = 0 := by
  simpa using pyRound_intCast 0

theorem pyRound_eq_of_lt_half (q : ℚ) (n : ℤ) (h1 : (n : ℚ) ≤ q) (h2 : q < n + 1)
    (h3 : q - n < 1/2) : pyRound q = n := by
  have hf : ⌊q⌋ = n := Int.floor_eq_iff.mpr ⟨h1, by exact_mod_cast h2⟩
  unfold pyRound
  rw [hf, if_pos h3]

theorem pyRound_eq_of_half_lt (q : ℚ) (n : ℤ) (h1 : (n : ℚ) ≤ q) (h2 : q < n + 1)
    (h3 : 1/2 < q - n) : pyRound q = n + 1 := by
  have hf : ⌊q⌋ = n := Int.floor_eq_iff.mpr ⟨h1, by exact_mod_cast h2⟩
  unfold pyRound
  rw [hf, if_neg (by linarith), if_pos h3]

theorem pyTrunc_intCast (n : ℤ) : pyTrunc (n : ℚ) = n := by
  unfold pyTrunc
  split_ifs with h
  · exact Int.floor_intCast n
  · rw [← Int.cast_neg, Int.floor_intCast]
    omega

theorem pyTrunc_eq_of_nonneg (q : ℚ) (n : ℤ) (h0 : 0 ≤ q) (h1 : (n : ℚ) ≤ q)
    (h2 : q < n + 1) : pyTrunc q = n := by
  unfold pyTrunc
  rw [if_pos h0, Int.floor_eq_iff.mpr ⟨h1, by exact_mod_cast h2⟩]

theorem pyTrunc_ratCast_eq (q : ℚ) (n : ℤ) (h : q = (n : ℚ)) : pyTrunc q = n := by
  rw [h, pyTrunc_intCast]

theorem pyTrunc_mono {q r : ℚ} (h : q ≤ r) : pyTrunc q ≤ pyTrunc r := by
  unfold pyTrunc
  split_ifs with h1 h2 h2
  · exact Int.floor_mono h
  · linarith
  · have hq : (0 : ℤ) ≤ ⌊-q⌋ := Int.floor_nonneg.mpr (by linarith)
    have hr : (0 : ℤ) ≤ ⌊r⌋ := Int.floor_nonneg.mpr h2
    omega
  · have := Int.floor_mono (neg_le_neg h)
    omega

theorem groq_apply_fst (ps : List (GroqPattern × ℕ)) (acc : ℤ × List GroqIssue) :
    (groq_apply_patterns ps acc).1 =
      acc.1 + (ps.map fun pm => if 0 < pm.2 then pm.1.score else 0).sum := by
  induction ps generalizing acc with
  | nil => simp [groq_apply_patterns]
  | cons pm rest ih =>
    rw [groq_apply_patterns, ih]
    by_cases hpm : 0 < pm.2
    · simp [hpm]
      ring
    · simp [hpm]

theorem groq_pattern_score_eq (ps : List (GroqPattern × ℕ)) (fs : ℤ) :
    groq_pattern_score ps fs =
      fs + (ps.map fun pm => if 0 < pm.2 then pm.1.score else 0).sum := by
  simpa using groq_apply_fst ps (fs, [])

theorem patternScore_append (l₁ l₂ : List DetectedIssue) :
    patternScore (l₁ ++ l₂) = patternScore l₁ + patternScore l₂ := by
  simp [patternScore]

theorem isPySpace_eq_false_of_isPyDigit {c : Char} (h : isPyDigit c = true) :
    isPySpace c = false := by
  by_contra hcon
  have hsp : isPySpace c = true := by
    cases hsp : isPySpace c
    · exact absurd hsp hcon
    · rfl
  simp only [isPySpace, Bool.or_eq_true, decide_eq_true_eq] at hsp
  rcases hsp with ((((h1 | h1) | h1) | h1) | h1) | h1 <;>
    (subst h1; simp [isPyDigit] at h)

theorem dropWhile_append_of_all {p : Char → Bool} {ws l : List Char}
    (h : ∀ c ∈ ws, p c = true) : (ws ++ l).dropWhile p = l.dropWhile p := by
  induction ws with
  | nil => simp
  | cons c rest ih =>
    have hc : p c = true := h c (List.mem_cons_self c rest)
    simp only [List.cons_append, List.dropWhile_cons, hc, if_true]
    exact ih fun x hx => h x (List.mem_cons_of_mem c hx)

theorem all_isPySpace_takeWhile (l : List Char) :
    ∀ c ∈ l.takeWhile isPySpace, isPySpace c = true := by
  induction l with
  | nil => simp
  | cons a rest ih =>
    intro c hc
    by_cases ha : isPySpace a
    · simp only [List.takeWhile_cons, ha, if_true, List.mem_cons] at hc
      rcases hc with rfl | hc
      · exact ha
      · exact ih c hc
    · simp only [List.takeWhile_cons] at hc
      rw [if_neg ha] at hc
      simp at hc

theorem scoreAt_some_of_head {cs : List Char} (h : HeadLabelScore cs) :
    ∃ a, scoreAt cs = some a := by
  rcases h with ⟨lab, ws, d, rest, rfl, hlab, hws, hd⟩
  have hlen : lab.length = labelChars.length := by
    simpa [lowerList] using congrArg List.length hlab
  have htake : (lab ++ (ws ++ d :: rest)).take labelChars.length = lab :=
    List.take_left' hlen
  have hdrop : (lab ++ (ws ++ d :: rest)).drop labelChars.length = ws ++ d :: rest :=
    List.drop_left' hlen
  have hdw : (ws ++ d :: rest).dropWhile isPySpace = d :: rest := by
    rw [dropWhile_append_of_all hws, List.dropWhile_cons,
      isPySpace_eq_false_of_isPyDigit hd]
    simp
  unfold scoreAt
  rw [List.append_assoc, htake, if_pos hlab, hdrop, hdw]
  simp [digitsVal?, List.takeWhile_cons, hd]

theorem head_of_scoreAt_some {cs : List Char} {a : ℕ} (h : scoreAt cs = some a) :
    HeadLabelScore cs := by
  unfold scoreAt at h
  by_cases hcond : lowerList (cs.take labelChars.length) = labelChars
  · rw [if_pos hcond] at h
    rcases hr : (cs.drop labelChars.length).dropWhile isPySpace with _ | ⟨d, rest⟩
    · rw [hr] at h
      simp [digitsVal?] at h
    · rw [hr] at h
      have hd : isPyDigit d = true := by
        by_contra hdc
        have hdf : isPyDigit d = false := by
          cases hdd : isPyDigit d
          · rfl
          · exact absurd hdd hdc
        simp [digitsVal?, List.takeWhile_cons, hdf] at h
      refine ⟨cs.take labelChars.length,
        (cs.drop labelChars.length).takeWhile isPySpace, d, rest, ?_, hcond,
        all_isPySpace_takeWhile _, hd⟩
      have hsplit : cs.drop labelChars.length =
          (cs.drop labelChars.length).takeWhile isPySpace ++ (d :: rest) := by
        rw [← hr, List.takeWhile_append_dropWhile]
      conv_lhs => rw [← List.take_append_drop labelChars.length cs, hsplit]
      rw [← List.append_assoc]
  · rw [if_neg hcond] at h
    exact absurd h (by simp)

theorem searchScore_none_iff (cs : List Char) :
    searchScore cs = none ↔ ∀ i, scoreAt (cs.drop i) = none := by
  induction cs with
  | nil =>
    constructor
    · intro _ i
      rw [List.drop_nil]
      decide
    · intro _
      rfl
  | cons c rest ih =>
    have hstep : searchScore (c :: rest) =
        (match scoreAt (c :: rest) with
         | some a => some a
         | none => searchScore rest) := rfl
    rcases hs : scoreAt (c :: rest) with _ | a
    · constructor
      · intro hnone i
        cases i with
        | zero => simpa using hs
        | succ j =>
          have hrest : searchScore rest = none := by
            rw [hstep, hs] at hnone
            exact hnone
          simpa using (ih.mp hrest) j
      · intro hall
        rw [hstep, hs]
        exact ih.mpr fun j => by simpa using hall (j + 1)
    · constructor
      · intro hnone
        rw [hstep, hs] at hnone
        exact absurd hnone (by simp)
      · intro hall
        have h0 := hall 0
        rw [List.drop_zero] at h0
        rw [h0] at hs
        exact absurd hs (by simp)

theorem labelScorePresent_iff (cs : List Char) :
    LabelScorePresent cs ↔ ∃ i, HeadLabelScore (cs.drop i) := by
  constructor
  · rintro ⟨pre, lab, ws, d, rest, rfl, hlab, hws, hd⟩
    exact ⟨pre.length, lab, ws, d, rest, by simp [List.drop_left], hlab, hws, hd⟩
  · rintro ⟨i, lab, ws, d, rest, hdrop, hlab, hws, hd⟩
    refine ⟨cs.take i, lab, ws, d, rest, ?_, hlab, hws, hd⟩
    conv_lhs => rw [← List.take_append_drop i cs]
    rw [hdrop]
    simp [List.append_assoc]

theorem calc_perfect7_eq : calculate_fake_probability analysesPerfect7 = 95 := by
  simp [calculate_fake_probability, patternScore, severityMultiplier,
    analysesPerfect7, issuePerfect7]
  norm_num [min_def, max_def]

theorem local_perfect7_eq :
    (perform_local_analysis analysesPerfect7).fake_probability = 95 := by
  simp only [perform_local_analysis, calc_perfect7_eq]
  exact pyRound_ratCast_eq _ 95 (by norm_num)

theorem calc_mid_eq : calculate_fake_probability analysesMid = 28 := by
  simp [calculate_fake_probability, patternScore, severityMultiplier, analysesMid]
  norm_num [min_def, max_def]

theorem calc_clean_eq : calculate_fake_probability analysesClean = 5 := by
  simp [calculate_fake_probability, patternScore, severityMultiplier, analysesClean]
  norm_num [min_def, max_def]

theorem local_mid_eq : (perform_local_analysis analysesMid).fake_probability = 28 := by
  simp only [perform_local_analysis, calc_mid_eq]
  exact pyRound_ratCast_eq _ 28 (by norm_num)

/-!
## Claim theorems
-/

/-- C5: the External Judgment Adapter parses the provider reply with a
case-insensitive search anchored to the literal label "AUTHENTICITY SCORE:"
followed by optional whitespace and an integer; it returns `None` exactly when no
such labelled integer is present — in particular on every failed call, whose
reply is the fixed string "AI analysis failed" or "AI analysis unavailable" —
and otherwise returns the conversion `100 - authenticity_score`. -/
theorem extract_ai_score_spec :
    (∀ s : String, extract_ai_score s = none ↔ ¬ LabelScorePresent s.toList) ∧
    (∀ (s : String) (a : ℕ),
        searchScore s.toList = some a → extract_ai_score s = some (100 - (a : ℤ))) ∧
    (∀ e : Unit, extract_ai_score (get_ai_analysis (Except.error e)) = none) ∧
    extract_ai_score (get_ai_analysis (Except.ok none)) = none ∧
    extract_ai_score "authenticity score: 40" = some 60 := by
  have key : ∀ x : List Char, scoreAt x = none ↔ ¬ HeadLabelScore x := by
    intro x
    constructor
    · intro hn hh
      rcases scoreAt_some_of_head hh with ⟨a, ha⟩
      rw [ha] at hn
      exact absurd hn (by simp)
    · intro hnh
      rcases hx : scoreAt x with _ | a
      · rfl
      · exact absurd (head_of_scoreAt_some hx) hnh
  refine ⟨?_, ?_, ?_, ?_, ?_⟩
  · intro s
    have h1 : extract_ai_score s = none ↔ searchScore s.toList = none := by
      unfold extract_ai_score
      cases hx : searchScore s.toList <;> simp
    rw [h1, searchScore_none_iff, labelScorePresent_iff, not_exists]
    exact forall_congr' fun i => key _
  · intro s a h
    unfold extract_ai_score
    rw [h]
    rfl
  · intro e
    cases e
    decide
  · decide
  · decide

/-- Witness for the C5 theorem: a reply without the label parses to `None`, and a
well-formed reply parses to the converted score. -/
theorem extract_ai_score_spec_witness :
    ¬ LabelScorePresent ("RED FLAGS: none listed".toList) ∧
    extract_ai_score "AUTHENTICITY SCORE: 85" = some 15 :=
  ⟨(extract_ai_score_spec.1 "RED FLAGS: none listed").mp (by decide),
   extract_ai_score_spec.2.1 "AUTHENTICITY SCORE: 85" 85 (by decide)⟩

/-- C2: if the external provider call fails (raise, timeout, unparseable reply —
all modelled by `Except.error`), the engine still produces a complete verdict
whose `analysis_method` is "local_only", carrying exactly the local analysis
fields, and equal to the verdict of running the engine without any provider;
the failure never escapes `verify_authenticity`. -/
theorem verify_authenticity_graceful_failure :
    ∀ (api_key : Bool) (l : LocalAnalysis) (e : String)
      (p : Except String AiAnalysis),
      verify_authenticity api_key l (Except.error e) = combine_analyses l none ∧
      (verify_authenticity api_key l (Except.error e)).analysis_method = "local_only" ∧
      (verify_authenticity api_key l (Except.error e)).fake_probability =
        l.fake_probability ∧
      (verify_authenticity api_key l (Except.error e)).detected_issues =
        l.detected_issues ∧
      (verify_authenticity api_key l (Except.error e)).recommendations =
        l.recommendations ∧
      verify_authenticity api_key l (Except.error e) = verify_authenticity false l p := by
  intro api_key l e p
  cases api_key <;> simp [verify_authenticity, combine_analyses]

/-- C7: both text-level analyzers return on the empty string without any division
(the degenerate branches yield literal zeros): zero word and sentence counts, no
sections, `has_proper_structure = false`, and zero-valued average sentence length
and vocabulary diversity. -/
theorem empty_input_stability :
    (analyze_research_structure "").word_count = 0 ∧
    (analyze_research_structure "").sentence_count = 0 ∧
    (analyze_research_structure "").total_sections = 0 ∧
    (analyze_research_structure "").has_proper_structure = false ∧
    (analyze_language_patterns "").avg_sentence_length = 0 ∧
    (analyze_language_patterns "").vocabulary_diversity = 0 := by
  have h1 : pv_sentences "" = [] := by decide
  have h2 : splitWs (lowerList "".toList) = [] := by decide
  have h3 : splitWs (lowerList []) = [] := by decide
  refine ⟨by decide, by decide, by decide, by decide, ?_, ?_⟩
  · simp [analyze_language_patterns, h1, h2, h3, pyRound1, pyRound_zero]
  · simp [analyze_language_patterns, h1, h2, h3, pyRound_zero]

/-- C10: the extracted external score is not range-validated: a reply carrying
"AUTHENTICITY SCORE: 150" yields the negative fake contribution `100 - 150 = -50`,
which the groq blend consumes as-is; likewise the Gemini-variant combiner blends
an out-of-range `ai_generated_probability` of 150 into a final probability of 117,
outside [5, 95]. -/
theorem unvalidated_external_score :
    extract_ai_score "AUTHENTICITY SCORE: 150" = some (-50) ∧
    (-50 : ℤ) < 0 ∧
    groq_blend 20 (-50) = -1 ∧
    (combine_analyses (perform_local_analysis analysesPerfect7)
        (some ⟨150, 8⟩)).fake_probability = 117 ∧
    ¬ ((combine_analyses (perform_local_analysis analysesPerfect7)
        (some ⟨150, 8⟩)).fake_probability ≤ 95) := by
  have hcomb : (combine_analyses (perform_local_analysis analysesPerfect7)
      (some ⟨150, 8⟩)).fake_probability = 117 := by
    simp only [combine_analyses, local_perfect7_eq]
    exact pyRound_ratCast_eq _ 117 (by push_cast; norm_num)
  refine ⟨?_, by decide, ?_, hcomb, by rw [hcomb]; decide⟩
  · unfold extract_ai_score
    rw [show searchScore ("AUTHENTICITY SCORE: 150").toList = some 150 from by decide]
    rfl
  · unfold groq_blend
    exact pyTrunc_ratCast_eq _ (-1) (by push_cast; norm_num)


/-- C1 (amended): the local-only probability is clamped into [5, 95] (both the
raw clamp and the rounded verdict field), and the groq variant's final
probability is likewise bounded; but the Gemini-variant combined path does not
re-clamp its blend, so even with a well-ranged external probability its result
is only guaranteed to lie in [3, 97]. -/
theorem fake_probability_boundedness_amended :
    (∀ a : Analyses,
        5 ≤ calculate_fake_probability a ∧ calculate_fake_probability a ≤ 95) ∧
    (∀ a : Analyses,
        5 ≤ (perform_local_analysis a).fake_probability ∧
        (perform_local_analysis a).fake_probability ≤ 95) ∧
    (∀ (fs : ℤ) (ai : Option ℤ) (q : ℤ) (wc : ℕ),
        5 ≤ groq_final_probability fs ai q wc ∧
        groq_final_probability fs ai q wc ≤ 95) ∧
    (∀ (l : LocalAnalysis) (ai : AiAnalysis),
        5 ≤ l.fake_probability → l.fake_probability ≤ 95 →
        0 ≤ ai.ai_generated_probability → ai.ai_generated_probability ≤ 100 →
        3 ≤ (combine_analyses l (some ai)).fake_probability ∧
        (combine_analyses l (some ai)).fake_probability ≤ 97) := by
  have hcalc : ∀ a : Analyses,
      5 ≤ calculate_fake_probability a ∧ calculate_fake_probability a ≤ 95 := by
    intro a
    simp only [calculate_fake_probability]
    exact ⟨le_max_left _ _, max_le (by norm_num) (min_le_left _ _)⟩
  refine ⟨hcalc, ?_, ?_, ?_⟩
  · intro a
    rcases hcalc a with ⟨hl, hr⟩
    have h1 := pyRound_mono hl
    have h2 := pyRound_mono hr
    rw [show (5 : ℚ) = ((5 : ℤ) : ℚ) from by norm_num, pyRound_intCast] at h1
    rw [show (95 : ℚ) = ((95 : ℤ) : ℚ) from by norm_num, pyRound_intCast] at h2
    exact ⟨h1, h2⟩
  · intro fs ai q wc
    simp only [groq_final_probability]
    split_ifs <;> constructor <;> omega
  · intro l ai h1 h2 h3 h4
    have h1' : (5 : ℚ) ≤ (l.fake_probability : ℚ) := by exact_mod_cast h1
    have h2' : (l.fake_probability : ℚ) ≤ 95 := by exact_mod_cast h2
    have hlow : ((3 : ℤ) : ℚ) ≤
        (l.fake_probability : ℚ) * (6/10) + ai.ai_generated_probability * (4/10) := by
      push_cast
      linarith
    have hhigh : (l.fake_probability : ℚ) * (6/10) + ai.ai_generated_probability * (4/10) ≤
        ((97 : ℤ) : ℚ) := by
      push_cast
      linarith
    have hl := pyRound_mono hlow
    have hh := pyRound_mono hhigh
    rw [pyRound_intCast] at hl hh
    exact ⟨hl, hh⟩

/-- Witness for the C1 amended theorem at a concrete local analysis with
probability 28 blended with an external probability of 50. -/
theorem fake_probability_boundedness_amended_witness :
    3 ≤ (combine_analyses (perform_local_analysis analysesMid)
        (some ⟨50, 5⟩)).fake_probability ∧
    (combine_analyses (perform_local_analysis analysesMid)
        (some ⟨50, 5⟩)).fake_probability ≤ 97 :=
  fake_probability_boundedness_amended.2.2.2 (perform_local_analysis analysesMid)
    ⟨50, 5⟩ (by rw [local_mid_eq]; decide) (by rw [local_mid_eq]; decide)
    (by show (0 : ℚ) ≤ 50; norm_num) (by show (50 : ℚ) ≤ 100; norm_num)

/-- Counterexample for C1 as stated: on the combined path, a local probability of
95 (reached by the seven-match concrete analysis) blended with a well-ranged
external probability of 100 yields `round(95 * 0.6 + 100 * 0.4) = 97`, outside
[5, 95]. -/
theorem combined_path_exceeds_bounds :
    (combine_analyses (perform_local_analysis analysesPerfect7)
        (some ⟨100, 8⟩)).analysis_method = "combined" ∧
    (combine_analyses (perform_local_analysis analysesPerfect7)
        (some ⟨100, 8⟩)).fake_probability = 97 ∧
    ¬ ((combine_analyses (perform_local_analysis analysesPerfect7)
        (some ⟨100, 8⟩)).fake_probability ≤ 95) := by
  have hcomb : (combine_analyses (perform_local_analysis analysesPerfect7)
      (some ⟨100, 8⟩)).fake_probability = 97 := by
    simp only [combine_analyses, local_perfect7_eq]
    exact pyRound_ratCast_eq _ 97 (by push_cast; norm_num)
  exact ⟨rfl, hcomb, by rw [hcomb]; decide⟩

/-- C3 (amended): in the Gemini variant an available external judgment gives
`fake_probability = round(local * 0.6 + ai * 0.4)` and `analysis_method =
"combined"`; the groq variant instead blends with `int()` truncation at weights
0.7/0.3 before the quality addition, clamp and length adjustment, and its
verdict's `analysis_method` is always the constant
"enhanced_ai_plus_pattern_detection", never "combined" or "local_only". -/
theorem combined_weighting_amended :
    (∀ (l : LocalAnalysis) (ai : AiAnalysis),
        (combine_analyses l (some ai)).fake_probability =
          pyRound ((l.fake_probability : ℚ) * (6/10) +
            ai.ai_generated_probability * (4/10)) ∧
        (combine_analyses l (some ai)).analysis_method = "combined") ∧
    (∀ (fs a q : ℤ) (wc : ℕ),
        groq_final_probability fs (some a) q wc =
          (if wc < 100 then max (min 95 (max 5 (groq_blend fs a + q)) - 10) 5
           else if 2000 < wc then min (min 95 (max 5 (groq_blend fs a + q)) + 5) 95
           else min 95 (max 5 (groq_blend fs a + q)))) ∧
    (∀ (t : String) (fp : ℤ) (d : List GroqIssue),
        (groq_verify_paper t fp d).analysis_method =
          "enhanced_ai_plus_pattern_detection") := by
  refine ⟨fun l ai => ⟨rfl, rfl⟩, fun fs a q wc => rfl, fun t fp d => rfl⟩

/-- Counterexample for C3 as stated: with a pattern score of 12 and an external
fake contribution of 5, the groq pipeline returns `int(12*0.7 + 5*0.3) = 9`,
while the claimed rounding would give 10; and the groq verdict's
`analysis_method` is not "combined". -/
theorem groq_blend_truncation_counterexample :
    groq_final_probability 12 (some 5) 0 500 = 9 ∧
    pyRound ((12 : ℚ) * (7/10) + (5 : ℚ) * (3/10)) = 10 ∧
    (9 : ℤ) ≠ 10 ∧
    (groq_verify_paper "" 9 []).analysis_method ≠ "combined" := by
  have hb : groq_blend 12 5 = 9 := by
    unfold groq_blend
    exact pyTrunc_eq_of_nonneg _ 9 (by push_cast; norm_num) (by push_cast; norm_num)
      (by push_cast; norm_num)
  refine ⟨?_, ?_, by decide, by decide⟩
  · simp only [groq_final_probability, hb]
    decide
  · have h := pyRound_eq_of_half_lt ((12 : ℚ) * (7/10) + (5 : ℚ) * (3/10)) 9
      (by norm_num) (by norm_num) (by norm_num)
    rw [h]
    decide

/-- C4 (amended): in the Gemini variant every DetectedIssue contributes
`count * multiplier` with multipliers 15/8/3 by severity (and there is no
negative pattern in that registry); in the groq variant each matched pattern
contributes its signed score ONCE regardless of match count, the
recent-citation pattern contributing a single -5. -/
theorem pattern_weighting_amended :
    (∀ (i : DetectedIssue) (rest : List DetectedIssue),
        patternScore (i :: rest) =
          (i.count : ℚ) * severityMultiplier i.severity + patternScore rest) ∧
    severityMultiplier "high" = 15 ∧
    severityMultiplier "medium" = 8 ∧
    severityMultiplier "low" = 3 ∧
    (∀ (ps : List (GroqPattern × ℕ)) (fs : ℤ),
        groq_pattern_score ps fs =
          fs + (ps.map fun pm => if 0 < pm.2 then pm.1.score else 0).sum) ∧
    recent_citation_pattern.score = -5 := by
  refine ⟨?_, by decide, by decide, by decide, groq_pattern_score_eq, rfl⟩
  intro i rest
  simp [patternScore]

/-- Counterexample for C4 as stated: three matches of the recent-citation
pattern change the groq accumulator by -5 (once per pattern), not by
3 * (-5); two matches of a high-severity pattern add its score 30 once,
not per match. -/
theorem pattern_weight_once_counterexample :
    groq_pattern_score [(recent_citation_pattern, 3)] 0 = -5 ∧
    (-5 : ℤ) ≠ 3 * recent_citation_pattern.score ∧
    groq_pattern_score
      [(⟨"100% (accuracy|success|effectiveness|correlation)",
          "Perfect Results Claims", 30, "high"⟩, 2)] 0 = 30 ∧
    (30 : ℤ) ≠ 2 * 30 := by
  decide

/-- C6: adding N occurrences to a high-severity DetectedIssue — all other
analysis results held constant — cannot decrease the local fake probability;
in the groq variant, raising a nonnegative pattern's match count cannot
decrease the accumulated score, and the final probability is monotone in the
accumulated score. -/
theorem monotonic_severity :
    (∀ (a : Analyses) (pre post : List DetectedIssue) (i : DetectedIssue) (N : ℕ),
        a.fake_patterns = pre ++ i :: post → i.severity = "high" →
        calculate_fake_probability a ≤
          calculate_fake_probability
            { a with fake_patterns := pre ++ { i with count := i.count + N } :: post }) ∧
    (∀ (a : Analyses) (j : DetectedIssue),
        j.severity = "high" →
        calculate_fake_probability a ≤
          calculate_fake_probability { a with fake_patterns := a.fake_patterns ++ [j] }) ∧
    (∀ (ps : List (GroqPattern × ℕ)) (p : GroqPattern) (n N : ℕ) (fs : ℤ),
        0 ≤ p.score →
        groq_pattern_score (ps ++ [(p, n)]) fs ≤
          groq_pattern_score (ps ++ [(p, n + N)]) fs) ∧
    (∀ (fs₁ fs₂ : ℤ) (ai : Option ℤ) (q : ℤ) (wc : ℕ),
        fs₁ ≤ fs₂ →
        groq_final_probability fs₁ ai q wc ≤ groq_final_probability fs₂ ai q wc) := by
  refine ⟨?_, ?_, ?_, ?_⟩
  · intro a pre post i N h1 h2
    have hkey : patternScore (pre ++ { i with count := i.count + N } :: post) =
        patternScore (pre ++ i :: post) + 15 * (N : ℚ) := by
      simp [patternScore, severityMultiplier, h2]
      ring
    have h15 : (0 : ℚ) ≤ 15 * (N : ℚ) := by positivity
    simp only [calculate_fake_probability, h1, hkey]
    exact max_le_max le_rfl (min_le_min le_rfl (by linarith))
  · intro a j h2
    have hkey : patternScore (a.fake_patterns ++ [j]) =
        patternScore a.fake_patterns + (j.count : ℚ) * 15 := by
      simp [patternScore, severityMultiplier, h2]
    have hj : (0 : ℚ) ≤ (j.count : ℚ) * 15 := by positivity
    simp only [calculate_fake_probability, hkey]
    exact max_le_max le_rfl (min_le_min le_rfl (by linarith))
  · intro ps p n N fs hscore
    rw [groq_pattern_score_eq, groq_pattern_score_eq]
    simp only [List.map_append, List.sum_append, List.map_cons, List.sum_cons,
      List.map_nil, List.sum_nil]
    have : (if 0 < n then p.score else 0) ≤ (if 0 < n + N then p.score else 0) := by
      split_ifs <;> omega
    omega
  · intro fs₁ fs₂ ai q wc h
    cases ai with
    | none =>
      simp only [groq_final_probability]
      split_ifs <;> omega
    | some a =>
      have hblend : groq_blend fs₁ a ≤ groq_blend fs₂ a := by
        unfold groq_blend
        apply pyTrunc_mono
        have h' : (fs₁ : ℚ) ≤ (fs₂ : ℚ) := by exact_mod_cast h
        linarith
      simp only [groq_final_probability]
      split_ifs <;> omega

/-- Witness for C6 at the concrete seven-match analysis, bumped by two more
matches, and at a concrete groq pattern list. -/
theorem monotonic_severity_witness :
    (calculate_fake_probability analysesPerfect7 ≤
      calculate_fake_probability
        { analysesPerfect7 with
          fake_patterns :=
            [] ++ { issuePerfect7 with count := issuePerfect7.count + 2 } :: [] }) ∧
    groq_pattern_score
      [(⟨"100% (accuracy|success|effectiveness|correlation)",
          "Perfect Results Claims", 30, "high"⟩, 0)] 0 ≤
      groq_pattern_score
        [(⟨"100% (accuracy|success|effectiveness|correlation)",
            "Perfect Results Claims", 30, "high"⟩, 0 + 3)] 0 ∧
    (calculate_fake_probability analysesClean ≤
      calculate_fake_probability
        { analysesClean with
          fake_patterns := analysesClean.fake_patterns ++ [issuePerfect7] }) ∧
    groq_final_probability 40 (some 10) 0 500 ≤
      groq_final_probability 55 (some 10) 0 500 :=
  ⟨monotonic_severity.1 analysesPerfect7 [] [] issuePerfect7 2 rfl rfl,
   monotonic_severity.2.2.1 []
     ⟨"100% (accuracy|success|effectiveness|correlation)",
       "Perfect Results Claims", 30, "high"⟩ 0 3 0 (by decide),
   monotonic_severity.2.1 analysesClean issuePerfect7 rfl,
   monotonic_severity.2.2.2 40 55 (some 10) 0 500 (by decide)⟩

/-- C8 (amended): in the Gemini variant `has_proper_structure` is exactly
`total_sections >= 4`, a function of the section count alone; in the groq
`verify_paper` route, however, `has_proper_structure` is
`word_count > 100 and sentence_count > 5`, independent of the section count
(whose threshold 3 only drives the +15 structural penalty). -/
theorem proper_structure_amended :
    (∀ t : String,
        (analyze_research_structure t).has_proper_structure =
          decide (4 ≤ (analyze_research_structure t).total_sections)) ∧
    (∀ (t : String) (fp : ℤ) (d : List GroqIssue),
        (groq_verify_paper t fp d).has_proper_structure =
          (decide (100 < groq_wp_word_count t) &&
            decide (5 < groq_wp_sentence_count t))) ∧
    (∀ t : String,
        groq_structure_penalty t = if groq_found_sections t < 3 then 15 else 0) := by
  exact ⟨fun t => rfl, fun t fp d => rfl, fun t => rfl⟩

set_option maxRecDepth 8000 in
/-- Counterexample for C8 as stated: a 101-word, 7-sentence text with zero
academic section keywords gets `has_proper_structure = true` from the groq
route, while the empty text — with the same section count of zero — gets
`false`: the field is not a function of the section count, and is true below
every documented section threshold. -/
theorem proper_structure_counterexample :
    (groq_verify_paper textManyWords 50 []).has_proper_structure = true ∧
    (groq_verify_paper "" 50 []).has_proper_structure = false ∧
    groq_found_sections textManyWords = 0 ∧
    groq_found_sections "" = 0 ∧
    (analyze_research_structure textManyWords).has_proper_structure = false := by
  decide

/-- C9 (amended): the first recommendation is a deterministic threshold ladder
over the fake probability in both variants, but the Gemini variant's ladder has
four levels (>80 critical, >60 high risk, >40 moderate, otherwise low risk),
while only the groq `verify_paper` ladder has the five documented levels with
the distinct >20 branch. -/
theorem recommendation_ladder_amended :
    (∀ (p : ℚ) (issues : List DetectedIssue) (lang : LanguageAnalysis),
        (generate_recommendations p issues lang).head? =
          some (if 80 < p then pvRecCritical else if 60 < p then pvRecHighRisk
            else if 40 < p then pvRecModerate else pvRecLowRisk)) ∧
    (∀ fp : ℤ,
        groq_first_recommendation fp =
          if 80 < fp then groqRecCritical
          else if 60 < fp then groqRecSuspicious
          else if 40 < fp then groqRecConcerns
          else if 20 < fp then groqRecMinor
          else groqRecAuthentic) ∧
    (∀ (t : String) (fp : ℤ) (d : List GroqIssue),
        (groq_verify_paper t fp d).recommendations.head? =
          some (groq_first_recommendation fp)) := by
  refine ⟨?_, fun fp => rfl, fun t fp d => rfl⟩
  intro p issues lang
  simp only [generate_recommendations]
  split_ifs <;> rfl

/-- Counterexample for C9 as stated: a verdict at probability 28 (inside the
claimed >20 minor-concerns band) receives the same first recommendation as one
at probability 5 in the Gemini variant — the low-risk message — whereas the
five-level ladder distinguishes these bands. -/
theorem recommendation_ladder_counterexample :
    (perform_local_analysis analysesMid).recommendations.head? = some pvRecLowRisk ∧
    (perform_local_analysis analysesClean).recommendations.head? = some pvRecLowRisk ∧
    calculate_fake_probability analysesMid = 28 ∧
    calculate_fake_probability analysesClean = 5 ∧
    groq_first_recommendation 28 = groqRecMinor ∧
    groq_first_recommendation 5 = groqRecAuthentic ∧
    groqRecMinor ≠ groqRecAuthentic := by
  refine ⟨?_, ?_, calc_mid_eq, calc_clean_eq, by decide, by decide, by decide⟩
  · simp [perform_local_analysis, generate_recommendations, calc_mid_eq,
      show ¬ ((80 : ℚ) < 28) from by norm_num,
      show ¬ ((60 : ℚ) < 28) from by norm_num,
      show ¬ ((40 : ℚ) < 28) from by norm_num]
  · simp [perform_local_analysis, generate_recommendations, calc_clean_eq,
      show ¬ ((80 : ℚ) < 5) from by norm_num,
      show ¬ ((60 : ℚ) < 5) from by norm_num,
      show ¬ ((40 : ℚ) < 5) from by norm_num]

end HackStreak
